import Mathlib

/-!
Verification of the `server.js` backend (SQL synthesis + ephemeral execution).

The development shallowly embeds the two Express request handlers of
`src/server.js`:

* `POST /api/generate-sql` (lines 38-112) becomes `generateSql`, parameterized
  by a `GenEnv` oracle standing for the Gemini client (`model.generateContent`)
  and the JavaScript runtime's `JSON.parse`.
* `POST /api/execute-sql` (lines 115-182) becomes `executeSql`, parameterized
  by an `Engine` oracle standing for the sqlite3 driver
  (`new sqlite3.Database(':memory:')`, `db.run`, `db.all`).

Both handlers are modelled as functions from the request body to the ordered
trace of observable events they perform (database calls, response sends,
closing the database), so that temporal claims (what is attempted, in which
order, how many responses go out) become statements about the trace list.

Strings are modelled as `List Char` so that the fence-stripping regexes of
lines 88-94 can be translated exactly and reasoned about by induction.
-/

namespace Server

/-- JavaScript strings, modelled as lists of characters. -/
abbrev Str := List Char

/-! ### The sqlite3 engine oracle

`src/server.js` uses three driver entry points: the `Database` constructor
(line 124), `db.run` (lines 135, 148) and `db.all` (line 160).  Each may
report an engine error message through its callback; `db.run` additionally
threads the (hidden) database state.  The engine is an oracle because SQLite
itself is not part of the repository. -/

structure Engine (σ ρ : Type) where
  openDB : Except Str σ
  run : σ → Str → Except Str σ
  allRows : σ → Str → Except Str (List ρ)

/-- An HTTP response produced by the execute handler: `res.status(s).json({error})`
or `res.json({results})` (implicitly status 200). -/
inductive Response (ρ : Type) where
  | err : Nat → Str → Response ρ
  | ok : List ρ → Response ρ
deriving DecidableEq

/-- Observable events of one `/api/execute-sql` request, in program order. -/
inductive Event (ρ : Type) where
  /-- the in-memory database was successfully opened (line 124) -/
  | dbOpen
  /-- `db.run(createTableSql, ...)` was invoked (line 135) -/
  | runCreate (stmt : Str)
  /-- `db.run(insertStmt, ...)` was invoked for the seed at 0-based index `idx` (line 148) -/
  | runInsert (idx : Nat) (stmt : Str)
  /-- `db.all(sqlQuery, [], ...)` was invoked (line 160) -/
  | runQuery (stmt : Str)
  /-- a response was sent to the client -/
  | send (r : Response ρ)
  /-- `db.close` completed (line 175) -/
  | dbClose
deriving DecidableEq

/-- The `insertDataSql` field of the request body: absent, present but not an
array (with its JavaScript truthiness), or an array of statements. -/
inductive SeedField where
  | absent
  | nonArray (truthy : Bool)
  | array (xs : List Str)
deriving DecidableEq

/-- The JSON body of a `POST /api/execute-sql` request (line 117 destructuring). -/
structure ExecBody where
  sqlQuery : Option Str
  createTableSql : Option Str
  insertDataSql : SeedField
deriving DecidableEq

/-- JavaScript truthiness of a possibly-absent string field: `undefined` and
`''` are falsy, every other string is truthy. -/
def strTruthy : Option Str → Bool
  | none => false
  | some s => !s.isEmpty

/-- JavaScript truthiness of the `insertDataSql` field (arrays, even empty
ones, are truthy). -/
def seedTruthy : SeedField → Bool
  | SeedField.absent => false
  | SeedField.nonArray t => t
  | SeedField.array _ => true

/-- `Array.isArray(insertDataSql)` (line 119). -/
def seedIsArray : SeedField → Bool
  | SeedField.array _ => true
  | _ => false

/-- The statements of an array-valued `insertDataSql` field. -/
def seedList : SeedField → List Str
  | SeedField.array xs => xs
  | _ => []

/-- The guard of line 119:
`!sqlQuery || !createTableSql || !insertDataSql || !Array.isArray(insertDataSql)`
is the negation of this. -/
def validBody (b : ExecBody) : Bool :=
  strTruthy b.sqlQuery && strTruthy b.createTableSql &&
    seedTruthy b.insertDataSql && seedIsArray b.insertDataSql

/-- The value of a destructured string field (only consulted after the
truthiness guard, so the default never matters). -/
def jsStr (o : Option Str) : Str := o.getD []

/-- JavaScript `a || b` on strings (`error.message || '...'`, line 171). -/
def jsOrElse (s fallback : Str) : Str := if s.isEmpty then fallback else s

/-- Line 120 error body. -/
def requiredMsg : Str := "SQL query, CREATE TABLE statement, and INSERT data are required.".toList

/-- Line 127 error body. -/
def initFailMsg : Str := "Failed to initialize database.".toList

/-- Line 138 message head: `Failed to create table: ${err.message}`. -/
def createFailHead : Str := "Failed to create table: ".toList

/-- Line 151 message head: `Failed to insert data: ${err.message}`. -/
def insertFailHead : Str := "Failed to insert data: ".toList

/-- Line 163 message head: `Failed to execute query: ${err.message}`. -/
def queryFailHead : Str := "Failed to execute query: ".toList

/-- Line 171 fallback body. -/
def unexpectedMsg : Str := "An unexpected error occurred during database operations.".toList

/-- The `for (const insertStmt of insertDataSql)` loop of lines 146-156: run
each seed statement in order, stopping at the first engine error.  Returns the
`runInsert` events performed and either the final database state or the first
error message. -/
def runSeeds (eng : Engine σ ρ) : σ → List Str → Nat → List (Event ρ) × Except Str σ
  | db, [], _ => ([], Except.ok db)
  | db, s :: rest, i =>
    match eng.run db s with
    | Except.error m => ([Event.runInsert i s], Except.error m)
    | Except.ok db2 =>
      let p := runSeeds eng db2 rest (i + 1)
      (Event.runInsert i s :: p.1, p.2)

/-- The 0-based index and engine message of the first failing seed statement,
if any, when executed sequentially from state `db`. -/
def firstSeedFailure (eng : Engine σ ρ) : σ → List Str → Nat → Option (Nat × Str)
  | _, [], _ => none
  | db, s :: rest, i =>
    match eng.run db s with
    | Except.error m => some (i, m)
    | Except.ok db2 => firstSeedFailure eng db2 rest (i + 1)

/-- Lines 146-167: after the table is created (state `db1`), run the seed
statements; on the first seed failure the `catch` block (lines 169-171)
replies 500 and the `finally` block closes the database; otherwise `db.all`
runs the query and its callback replies (rows or a 500), after which the
queued `db.close` completes. -/
def seedPhase (eng : Engine σ ρ) (b : ExecBody) (db1 : σ) : List (Event ρ) :=
  match runSeeds eng db1 (seedList b.insertDataSql) 0 with
  | (evs, Except.error m) =>
    evs ++ [Event.send (Response.err 500 (jsOrElse (insertFailHead ++ m) unexpectedMsg)),
            Event.dbClose]
  | (evs, Except.ok db2) =>
    evs ++ Event.runQuery (jsStr b.sqlQuery) ::
      (match eng.allRows db2 (jsStr b.sqlQuery) with
       | Except.error m => [Event.send (Response.err 500 (queryFailHead ++ m))]
       | Except.ok rows => [Event.send (Response.ok rows)]) ++ [Event.dbClose]

/-- Lines 134-143: run the `CREATE TABLE` statement against the opened
database `d`; on failure the `catch` block replies 500 and the `finally`
block closes the database. -/
def createPhase (eng : Engine σ ρ) (b : ExecBody) (d : σ) : List (Event ρ) :=
  match eng.run d (jsStr b.createTableSql) with
  | Except.error m =>
    [Event.runCreate (jsStr b.createTableSql),
     Event.send (Response.err 500 (jsOrElse (createFailHead ++ m) unexpectedMsg)),
     Event.dbClose]
  | Except.ok db1 => Event.runCreate (jsStr b.createTableSql) :: seedPhase eng b db1

/-- The `POST /api/execute-sql` handler (lines 115-182) as a trace function.

If validation fails the 400 is returned before any database is created.
If opening fails, the open callback (lines 125-128) replies 500 but — since
`return` there only exits the callback — the handler body still runs: the
queued `CREATE TABLE` call fails with the open error, so the `catch` block
sends a second 500 and `finally` still closes the handle. -/
def executeSql (eng : Engine σ ρ) (b : ExecBody) : List (Event ρ) :=
  if validBody b = false then
    [Event.send (Response.err 400 requiredMsg)]
  else
    match eng.openDB with
    | Except.error e =>
      [Event.send (Response.err 500 initFailMsg),
       Event.runCreate (jsStr b.createTableSql),
       Event.send (Response.err 500 (jsOrElse (createFailHead ++ e) unexpectedMsg)),
       Event.dbClose]
    | Except.ok d => Event.dbOpen :: createPhase eng b d

/-- The server processes each request independently; there is no module-level
mutable state in `server.js` that the execute handler reads or writes, so a
stream of requests is handled by mapping the (stateless) handler over it. -/
def serveAll (eng : Engine σ ρ) (reqs : List ExecBody) : List (List (Event ρ)) :=
  reqs.map (executeSql eng)

/-- Is this event a response send? -/
def isSend : Event ρ → Bool
  | Event.send _ => true
  | _ => false

/-- Number of responses sent during one request. -/
def sendCount (tr : List (Event ρ)) : Nat := (tr.filter isSend).length

/-- The row sets of all success responses in a trace. -/
def sentRows (tr : List (Event ρ)) : List (List ρ) :=
  tr.filterMap fun e =>
    match e with
    | Event.send (Response.ok rows) => some rows
    | _ => none

/-- Scan of `closeBeforeSends`: `seen` records whether `dbClose` has already
occurred; every `send` must come after it. -/
def closeBeforeSendsAux (seen : Bool) : List (Event ρ) → Bool
  | [] => true
  | Event.dbClose :: r => closeBeforeSendsAux true r
  | Event.send _ :: r => seen && closeBeforeSendsAux seen r
  | _ :: r => closeBeforeSendsAux seen r

/-- `true` iff every response send in the trace is preceded by the database
close (the ordering the specification asserts). -/
def closeBeforeSends (tr : List (Event ρ)) : Bool := closeBeforeSendsAux false tr

/-- Does `s` start with `pat`? (used to express substring facts about error
messages). -/
def strStartsWith : Str → Str → Bool
  | _, [] => true
  | [], _ :: _ => false
  | c :: cs, p :: ps => c == p && strStartsWith cs ps

/-- Does `s` contain `pat` as a contiguous substring? -/
def strContains : Str → Str → Bool
  | [], pat => pat.isEmpty
  | c :: cs, pat => strStartsWith (c :: cs) pat || strContains cs pat

/-- Does some error response in the trace carry the engine message `m`
(as a substring of its body)? -/
def carriesEngineMsg (tr : List (Event ρ)) (m : Str) : Bool :=
  tr.any fun e =>
    match e with
    | Event.send (Response.err _ msg) => strContains msg m
    | _ => false

/-- Does some error response in the trace identify a seed statement, either by
its 1-based index `oneBased` (decimal) or by its text `stmt`? -/
def mentionsIndexOrStmt (tr : List (Event ρ)) (oneBased : Nat) (stmt : Str) : Bool :=
  tr.any fun e =>
    match e with
    | Event.send (Response.err _ msg) =>
      strContains msg (Nat.repr oneBased).toList || strContains msg stmt
    | _ => false

/-! ### The generate-sql handler (lines 38-112)

The Gemini client and the runtime's `JSON.parse` are oracles: `generate`
stands for `model.generateContent(...)`/`result.response.text()` (lines
79-81), which may fail (network, quota, service error), and `parseJson`
stands for `JSON.parse` (line 95), which may fail to parse.  The parsed
payload type `π` is abstract: the handler passes the three extracted fields
through unchanged (lines 103-106). -/

structure GenEnv (π : Type) where
  generate : Str → Except Str Str
  parseJson : Str → Option π

/-- A response of the generate handler. -/
inductive GenResponse (π : Type) where
  | err : Nat → Str → GenResponse π
  | ok : π → GenResponse π
deriving DecidableEq

/-- Observable events of one `/api/generate-sql` request, in program order. -/
inductive GenEvent (π : Type) where
  /-- the external text-generation service was invoked with the full
  instruction string (line 79) -/
  | callGemini (instruction : Str)
  /-- a response was sent to the client -/
  | send (r : GenResponse π)
deriving DecidableEq

/-- Line 43 error body. -/
def promptRequiredMsg : Str := "Prompt is required.".toList

/-- Line 99 error body. -/
def parseFailMsg : Str := "Failed to parse Gemini response. It might not be valid JSON.".toList

/-- Line 110 error body. -/
def genFailMsg : Str := "Failed to generate SQL. Please try again.".toList

/-- The fixed text of the Gemini instruction template (lines 51-61) that
precedes the interpolated prompt. -/
def geminiLead : Str :=
  ("\n      Given the following natural language request, generate:\n      1. A SQLite SQL SELECT query that answers the request.\n      2. A SQLite CREATE TABLE statement for a table that would contain relevant data for this query.\n      3. At least 5 SQLite INSERT INTO statements to populate the table with sample data.\n      \n      Ensure the table name and column names in the SELECT query match the CREATE TABLE statement.\n      The output should be in a JSON format with three keys: \"sqlQuery\", \"createTableSql\", and \"insertDataSql\".\n      \"insertDataSql\" should be an array of strings, where each string is an INSERT INTO statement.\n\n      Natural language request: \"").toList

/-- The fixed text of the Gemini instruction template (lines 61-75) that
follows the interpolated prompt. -/
def geminiTail : Str :=
  ("\"\n\n      Example JSON output structure:\n      \x7b\n        \"sqlQuery\": \"SELECT name, age FROM students WHERE age > 20;\",\n        \"createTableSql\": \"CREATE TABLE students (id INTEGER PRIMARY KEY, name TEXT, age INTEGER, major TEXT);\",\n        \"insertDataSql\": [\n          \"INSERT INTO students (id, name, age, major) VALUES (1, \x27Alice\x27, 22, \x27Computer Science\x27);\",\n          \"INSERT INTO students (id, name, age, major) VALUES (2, \x27Bob\x27, 19, \x27Physics\x27);\",\n          \"INSERT INTO students (id, name, age, major) VALUES (3, \x27Charlie\x27, 25, \x27Mathematics\x27);\",\n          \"INSERT INTO students (id, name, age, major) VALUES (4, \x27Diana\x27, 21, \x27Biology\x27);\",\n          \"INSERT INTO students (id, name, age, major) VALUES (5, \x27Eve\x27, 23, \x27Chemistry\x27);\"\n        ]\n      \x7d\n    ").toList

/-- The instruction string sent to the service: the template with the caller's
prompt interpolated verbatim (line 61 `"${prompt}"`). -/
def geminiPrompt (p : Str) : Str := geminiLead ++ p ++ geminiTail

/-- The characters `String.prototype.trim` removes (ECMAScript WhiteSpace and
LineTerminator). -/
def isJsSpace (c : Char) : Bool :=
  c == ' ' || c == '\t' || c == '\n' || c == '\r' ||
  c == '\u000B' || c == '\u000C' || c == ' ' || c == '﻿' ||
  c == ' ' || c == ' ' || c == ' ' || c == ' ' ||
  c == ' ' || c == ' ' || c == ' ' || c == ' ' ||
  c == ' ' || c == ' ' || c == ' ' || c == ' ' ||
  c == ' ' || c == ' ' || c == ' ' || c == ' ' ||
  c == '　'

/-- `text.trim()` (line 88). -/
def jsTrim (s : Str) : Str :=
  ((s.dropWhile isJsSpace).reverse.dropWhile isJsSpace).reverse

/-- The backtick character (code point 96). -/
def btick : Char := Char.ofNat 96

/-- Three backticks, the Markdown fence marker. -/
def fence : Str := [btick, btick, btick]

/-- `cleanedText.startsWith('```')` (line 89). -/
def startsWithFence (s : Str) : Bool := s.take 3 == fence

/-- Matched by `[a-z]` under the `i` flag of the line 91 regex. -/
def isAsciiLetter (c : Char) : Bool :=
  ('a' ≤ c && c ≤ 'z') || ('A' ≤ c && c ≤ 'Z')

/-- `cleanedText.replace(/^```[a-z]*\n?/i, '')` (line 91), in the branch
where the text is known to start with the fence: drop the three backticks,
then the maximal run of ASCII letters, then one optional newline. -/
def stripOpenFence (s : Str) : Str :=
  let r := (s.drop 3).dropWhile isAsciiLetter
  if r.take 1 = ['\n'] then r.drop 1 else r

/-- `cleanedText.replace(/\n?```$/, '')` (line 93): the anchored match
exists iff the text ends in three backticks; the leftmost such match also
consumes a directly preceding newline when present. -/
def stripCloseFence (s : Str) : Str :=
  let r := s.reverse
  if r.take 4 = btick :: btick :: btick :: ['\n'] then (r.drop 4).reverse
  else if r.take 3 = fence then (r.drop 3).reverse
  else s

/-- Lines 88-94: trim the raw model text and, when it starts with a fenced
code block marker, strip the opening fence (with its letter tag) and a
trailing fence line. -/
def cleanGeminiText (text : Str) : Str :=
  let t := jsTrim text
  if startsWithFence t then stripCloseFence (stripOpenFence t) else t

/-- The `POST /api/generate-sql` handler (lines 38-112) as a trace function.
A falsy prompt (absent or empty string, line 42) is rejected with 400 before
the service is consulted; otherwise the service is invoked, its reply is
normalized and parsed, and exactly one response goes out. -/
def generateSql (env : GenEnv π) (prompt : Option Str) : List (GenEvent π) :=
  if strTruthy prompt = false then
    [GenEvent.send (GenResponse.err 400 promptRequiredMsg)]
  else
    match env.generate (geminiPrompt (jsStr prompt)) with
    | Except.error _ =>
      [GenEvent.callGemini (geminiPrompt (jsStr prompt)),
       GenEvent.send (GenResponse.err 500 genFailMsg)]
    | Except.ok text =>
      match env.parseJson (cleanGeminiText text) with
      | none =>
        [GenEvent.callGemini (geminiPrompt (jsStr prompt)),
         GenEvent.send (GenResponse.err 500 parseFailMsg)]
      | some p =>
        [GenEvent.callGemini (geminiPrompt (jsStr prompt)),
         GenEvent.send (GenResponse.ok p)]

/-! ### Concrete probe data for witnesses and counterexamples -/

/-- A well-formed `CREATE TABLE` artifact. -/
def createStmt : Str := "CREATE TABLE t (id INTEGER)".toList

/-- A seed statement that succeeds in the probe engines. -/
def seedStmt0 : Str := "INSERT INTO t VALUES (1)".toList

/-- A seed statement that `seedFailEngine` rejects. -/
def seedStmt1 : Str := "INSERT INTO u VALUES (2)".toList

/-- A query artifact. -/
def queryStmt : Str := "SELECT * FROM t".toList

/-- The engine message with which `seedFailEngine` rejects `seedStmt1`. -/
def noSuchTableMsg : Str := "no such table: u".toList

/-- A fully valid request body with two seed statements. -/
def probeBody : ExecBody :=
  ⟨some queryStmt, some createStmt, SeedField.array [seedStmt0, seedStmt1]⟩

/-- An engine on which every step succeeds and the query returns one row. -/
def probeEngine : Engine Nat Nat where
  openDB := Except.ok 0
  run := fun db _ => Except.ok db
  allRows := fun _ _ => Except.ok [7]

/-- An engine whose in-memory database fails to open; queued statements then
fail with the open error, as the sqlite3 driver does. -/
def openFailEngine : Engine Nat Nat where
  openDB := Except.error "SQLITE_CANTOPEN: unable to open database file".toList
  run := fun _ _ => Except.error "SQLITE_CANTOPEN: unable to open database file".toList
  allRows := fun _ _ => Except.error "SQLITE_CANTOPEN: unable to open database file".toList

/-- An engine that rejects every `db.run` statement (schema stage fails). -/
def schemaFailEngine : Engine Nat Nat where
  openDB := Except.ok 0
  run := fun _ _ => Except.error "near \"CREET\": syntax error".toList
  allRows := fun _ _ => Except.ok []

/-- An engine that rejects exactly the statement `seedStmt1` (the second seed
of `probeBody`) and accepts everything else. -/
def seedFailEngine : Engine Nat Nat where
  openDB := Except.ok 0
  run := fun db s => if s = seedStmt1 then Except.error noSuchTableMsg else Except.ok db
  allRows := fun _ _ => Except.ok [7]

/-- A generation environment in which the upstream call fails and nothing
parses (its behavior is irrelevant to the validation claims). -/
def probeGenEnv : GenEnv Nat where
  generate := fun _ => Except.error []
  parseJson := fun _ => none

/-! ### Basic lemmas about the embedded handler -/

theorem createFailHead_ne_nil : createFailHead ≠ [] := by decide

theorem insertFailHead_ne_nil : insertFailHead ≠ [] := by decide

theorem jsOrElse_append_head (a m f : Str) (h : a ≠ []) : jsOrElse (a ++ m) f = a ++ m := by
  cases a with
  | nil => exact absurd rfl h
  | cons c cs => rfl

/-- A request failing the line 119 guard is answered 400 immediately. -/
theorem execSql_invalid {σ ρ : Type} (eng : Engine σ ρ) (b : ExecBody)
    (hv : validBody b = false) :
    executeSql eng b = [Event.send (Response.err 400 requiredMsg)] := by
  simp [executeSql, hv]

/-- Trace of a request on which opening the in-memory database fails. -/
theorem execSql_openErr {σ ρ : Type} (eng : Engine σ ρ) (b : ExecBody) (e : Str)
    (hv : validBody b = true) (ho : eng.openDB = Except.error e) :
    executeSql eng b =
      [Event.send (Response.err 500 initFailMsg),
       Event.runCreate (jsStr b.createTableSql),
       Event.send (Response.err 500 (createFailHead ++ e)),
       Event.dbClose] := by
  simp [executeSql, hv, ho, jsOrElse_append_head _ _ _ createFailHead_ne_nil]

/-- Trace of a request on which the `CREATE TABLE` statement fails. -/
theorem execSql_createErr {σ ρ : Type} (eng : Engine σ ρ) (b : ExecBody) (d : σ) (m : Str)
    (hv : validBody b = true) (ho : eng.openDB = Except.ok d)
    (hc : eng.run d (jsStr b.createTableSql) = Except.error m) :
    executeSql eng b =
      [Event.dbOpen,
       Event.runCreate (jsStr b.createTableSql),
       Event.send (Response.err 500 (createFailHead ++ m)),
       Event.dbClose] := by
  simp [executeSql, createPhase, hv, ho, hc,
    jsOrElse_append_head _ _ _ createFailHead_ne_nil]

/-- Trace of a request on which some seed statement fails. -/
theorem execSql_seedErr {σ ρ : Type} (eng : Engine σ ρ) (b : ExecBody) (d db1 : σ)
    (evs : List (Event ρ)) (m : Str)
    (hv : validBody b = true) (ho : eng.openDB = Except.ok d)
    (hc : eng.run d (jsStr b.createTableSql) = Except.ok db1)
    (hs : runSeeds eng db1 (seedList b.insertDataSql) 0 = (evs, Except.error m)) :
    executeSql eng b =
      Event.dbOpen :: Event.runCreate (jsStr b.createTableSql) ::
        (evs ++ [Event.send (Response.err 500 (insertFailHead ++ m)), Event.dbClose]) := by
  simp [executeSql, createPhase, seedPhase, hv, ho, hc, hs,
    jsOrElse_append_head _ _ _ insertFailHead_ne_nil]

/-- Trace of a request on which the query statement fails. -/
theorem execSql_queryErr {σ ρ : Type} (eng : Engine σ ρ) (b : ExecBody) (d db1 db2 : σ)
    (evs : List (Event ρ)) (m : Str)
    (hv : validBody b = true) (ho : eng.openDB = Except.ok d)
    (hc : eng.run d (jsStr b.createTableSql) = Except.ok db1)
    (hs : runSeeds eng db1 (seedList b.insertDataSql) 0 = (evs, Except.ok db2))
    (hq : eng.allRows db2 (jsStr b.sqlQuery) = Except.error m) :
    executeSql eng b =
      Event.dbOpen :: Event.runCreate (jsStr b.createTableSql) ::
        (evs ++ [Event.runQuery (jsStr b.sqlQuery),
                 Event.send (Response.err 500 (queryFailHead ++ m)),
                 Event.dbClose]) := by
  simp [executeSql, createPhase, seedPhase, hv, ho, hc, hs, hq]

/-- Trace of a fully successful request. -/
theorem execSql_queryOk {σ ρ : Type} (eng : Engine σ ρ) (b : ExecBody) (d db1 db2 : σ)
    (evs : List (Event ρ)) (rows : List ρ)
    (hv : validBody b = true) (ho : eng.openDB = Except.ok d)
    (hc : eng.run d (jsStr b.createTableSql) = Except.ok db1)
    (hs : runSeeds eng db1 (seedList b.insertDataSql) 0 = (evs, Except.ok db2))
    (hq : eng.allRows db2 (jsStr b.sqlQuery) = Except.ok rows) :
    executeSql eng b =
      Event.dbOpen :: Event.runCreate (jsStr b.createTableSql) ::
        (evs ++ [Event.runQuery (jsStr b.sqlQuery),
                 Event.send (Response.ok rows),
                 Event.dbClose]) := by
  simp [executeSql, createPhase, seedPhase, hv, ho, hc, hs, hq]

/-- Every event produced by the seed loop is a `runInsert` whose index is at
least the starting index. -/
theorem runSeeds_events {σ ρ : Type} (eng : Engine σ ρ) :
    ∀ (ss : List Str) (db : σ) (i : Nat) (e : Event ρ),
      e ∈ (runSeeds eng db ss i).1 → ∃ j s, i ≤ j ∧ e = Event.runInsert j s := by
  intro ss
  induction ss with
  | nil => intro db i e h; simp [runSeeds] at h
  | cons s rest ih =>
    intro db i e h
    cases hr : eng.run db s with
    | error m =>
      simp [runSeeds, hr] at h
      exact ⟨i, s, Nat.le_refl i, h⟩
    | ok db2 =>
      simp [runSeeds, hr] at h
      rcases h with h | h
      · exact ⟨i, s, Nat.le_refl i, h⟩
      · obtain ⟨j, s2, hij, he⟩ := ih db2 (i + 1) e h
        exact ⟨j, s2, Nat.le_trans (Nat.le_succ i) hij, he⟩

/-- If the first failing seed statement has index `n` and message `m`, the
seed loop stops with error `m` and never runs a statement beyond index `n`. -/
theorem firstSeedFailure_spec {σ ρ : Type} (eng : Engine σ ρ) :
    ∀ (ss : List Str) (db : σ) (i n : Nat) (m : Str),
      firstSeedFailure eng db ss i = some (n, m) →
      i ≤ n ∧ (runSeeds eng db ss i : List (Event ρ) × Except Str σ).2 = Except.error m ∧
      ∀ j s, Event.runInsert j s ∈ (runSeeds eng db ss i : List (Event ρ) × Except Str σ).1 →
        j ≤ n := by
  intro ss
  induction ss with
  | nil => intro db i n m h; simp [firstSeedFailure] at h
  | cons s rest ih =>
    intro db i n m h
    cases hr : eng.run db s with
    | error m2 =>
      simp [firstSeedFailure, hr] at h
      obtain ⟨h1, h2⟩ := h
      subst h1; subst h2
      refine ⟨Nat.le_refl i, by simp [runSeeds, hr], ?_⟩
      intro j s2 hj
      simp [runSeeds, hr] at hj
      exact Nat.le_of_eq hj.1
    | ok db2 =>
      simp [firstSeedFailure, hr] at h
      obtain ⟨hle, h2, hb⟩ := ih db2 (i + 1) n m h
      refine ⟨Nat.le_trans (Nat.le_succ i) hle, by simp [runSeeds, hr, h2], ?_⟩
      intro j s2 hj
      simp [runSeeds, hr] at hj
      rcases hj with ⟨hj1, _⟩ | hj
      · exact hj1 ▸ Nat.le_trans (Nat.le_succ i) hle
      · exact hb j s2 hj

/-! ### Claim theorems -/

/-- Claim C2 (confirmed): for every execution request, if the table-definition
statement fails, no seed statement is attempted, the query is not executed,
and the only response is a schema-stage 500 whose body is
`Failed to create table: ` followed by the underlying engine message. -/
theorem schema_failure_aborts {σ ρ : Type} (eng : Engine σ ρ) (b : ExecBody) (d : σ) (m : Str)
    (hv : validBody b = true) (ho : eng.openDB = Except.ok d)
    (hc : eng.run d (jsStr b.createTableSql) = Except.error m) :
    (∀ i s, Event.runInsert i s ∉ executeSql eng b) ∧
    (∀ q, Event.runQuery q ∉ executeSql eng b) ∧
    Event.send (Response.err 500 (createFailHead ++ m)) ∈ executeSql eng b ∧
    (∀ st msg, Event.send (Response.err st msg) ∈ executeSql eng b →
      st = 500 ∧ msg = createFailHead ++ m) := by
  have ht := execSql_createErr eng b d m hv ho hc
  refine ⟨fun i s => ?_, fun q => ?_, ?_, fun st msg hmem => ?_⟩
  · simp [ht]
  · simp [ht]
  · simp [ht]
  · rw [ht] at hmem
    simp at hmem
    exact hmem

/-- Witness for C2: on the engine rejecting `CREATE TABLE`, the schema-stage
500 with the engine message is indeed sent. -/
theorem schema_failure_aborts_witness :
    Event.send (Response.err 500 (createFailHead ++ "near \"CREET\": syntax error".toList)) ∈
      executeSql schemaFailEngine probeBody :=
  (schema_failure_aborts schemaFailEngine probeBody 0
    ("near \"CREET\": syntax error".toList) rfl rfl rfl).2.2.1

/-- Claim C5 (confirmed): an execution request missing the query field, the
table-definition field, or whose seed-statement field is missing or not an
array, is answered 400 and no database instance is created; an empty
seed-statement array passes the validation. -/
theorem missing_fields_rejected :
    (∀ (σ ρ : Type) (eng : Engine σ ρ) (b : ExecBody),
      b.sqlQuery = none ∨ b.createTableSql = none ∨ seedIsArray b.insertDataSql = false →
      executeSql eng b = [Event.send (Response.err 400 requiredMsg)] ∧
      Event.dbOpen ∉ executeSql eng b) ∧
    (∀ q c : Str, q ≠ [] → c ≠ [] →
      validBody ⟨some q, some c, SeedField.array []⟩ = true) := by
  constructor
  · intro σ ρ eng b h
    have hv : validBody b = false := by
      rcases h with h | h | h
      · simp [validBody, strTruthy, h]
      · simp [validBody, strTruthy, h]
      · simp [validBody, h]
    rw [execSql_invalid eng b hv]
    exact ⟨rfl, by simp⟩
  · intro q c hq hc
    cases q with
    | nil => exact absurd rfl hq
    | cons a as =>
      cases c with
      | nil => exact absurd rfl hc
      | cons e es => rfl

/-- Witness for C5: a body with a missing query is answered 400, and an empty
seed array passes validation. -/
theorem missing_fields_rejected_witness :
    executeSql probeEngine ⟨none, some createStmt, SeedField.array [seedStmt0]⟩ =
      [Event.send (Response.err 400 requiredMsg)] ∧
    validBody ⟨some queryStmt, some createStmt, SeedField.array []⟩ = true :=
  ⟨(missing_fields_rejected.1 Nat Nat probeEngine
      ⟨none, some createStmt, SeedField.array [seedStmt0]⟩ (Or.inl rfl)).1,
   missing_fields_rejected.2 queryStmt createStmt (by decide) (by decide)⟩

/-- Claim C10 (confirmed): an execution request whose query or
table-definition field is present but equal to the empty string is also
answered 400, with no database created. -/
theorem empty_string_fields_rejected {σ ρ : Type} (eng : Engine σ ρ) (b : ExecBody)
    (h : b.sqlQuery = some [] ∨ b.createTableSql = some []) :
    executeSql eng b = [Event.send (Response.err 400 requiredMsg)] ∧
    Event.dbOpen ∉ executeSql eng b := by
  have hv : validBody b = false := by
    rcases h with h | h
    · simp [validBody, strTruthy, h]
    · simp [validBody, strTruthy, h]
  rw [execSql_invalid eng b hv]
  exact ⟨rfl, by simp⟩

/-- Witness for C10: the empty-string query is rejected with 400. -/
theorem empty_string_fields_rejected_witness :
    executeSql probeEngine ⟨some [], some createStmt, SeedField.array [seedStmt0]⟩ =
      [Event.send (Response.err 400 requiredMsg)] :=
  (empty_string_fields_rejected probeEngine
    ⟨some [], some createStmt, SeedField.array [seedStmt0]⟩ (Or.inl rfl)).1

/-- Claim C6 (confirmed): a synthesis request whose prompt is absent or the
empty string is answered 400 and the external text-generation service is
never invoked. -/
theorem empty_prompt_never_calls_service {π : Type} (env : GenEnv π) (prompt : Option Str)
    (h : prompt = none ∨ prompt = some []) :
    generateSql env prompt = [GenEvent.send (GenResponse.err 400 promptRequiredMsg)] ∧
    ∀ p, GenEvent.callGemini p ∉ generateSql env prompt := by
  have ht : strTruthy prompt = false := by
    rcases h with h | h <;> simp [strTruthy, h]
  constructor
  · simp [generateSql, ht]
  · intro p
    simp [generateSql, ht]

/-- Witness for C6: the absent prompt is answered 400. -/
theorem empty_prompt_never_calls_service_witness :
    generateSql probeGenEnv none = [GenEvent.send (GenResponse.err 400 promptRequiredMsg)] :=
  (empty_prompt_never_calls_service probeGenEnv none (Or.inl rfl)).1

/-- Counterexample to claim C4 as stated: when opening the in-memory database
fails, the open callback sends a 500 but — `return` only exiting the
callback — the handler body still runs and the `catch` block sends a second
response; so an open failure does not short-circuit the pipeline to a single
response. -/
theorem single_response_refuted_on_open_failure :
    validBody probeBody = true ∧
    sendCount (executeSql openFailEngine probeBody) = 2 := by decide

/-- Claim C4 (corrected): whenever the in-memory database opens successfully
(and on every validation failure), exactly one response is sent per request —
the first terminal outcome short-circuits the remaining pipeline steps.  Only
the database-open-failure path violates the claim as stated. -/
theorem single_response_per_request {σ ρ : Type} (eng : Engine σ ρ) (b : ExecBody) (d : σ)
    (ho : eng.openDB = Except.ok d) : sendCount (executeSql eng b) = 1 := by
  cases hv : validBody b with
  | false => rw [execSql_invalid eng b hv]; rfl
  | true =>
    cases hc : eng.run d (jsStr b.createTableSql) with
    | error m => rw [execSql_createErr eng b d m hv ho hc]; rfl
    | ok db1 =>
      rcases hs : runSeeds eng db1 (seedList b.insertDataSql) 0 with ⟨evs, r⟩
      have hevs : List.filter isSend evs = [] := by
        refine List.filter_eq_nil_iff.mpr ?_
        intro e he
        obtain ⟨j, s, -, rfl⟩ := runSeeds_events eng (seedList b.insertDataSql) db1 0 e
          (by rw [hs]; exact he)
        simp [isSend]
      cases r with
      | error m =>
        rw [execSql_seedErr eng b d db1 evs m hv ho hc hs]
        simp [sendCount, List.filter_append, hevs, isSend]
      | ok db2 =>
        cases hq : eng.allRows db2 (jsStr b.sqlQuery) with
        | error m =>
          rw [execSql_queryErr eng b d db1 db2 evs m hv ho hc hs hq]
          simp [sendCount, List.filter_append, hevs, isSend]
        | ok rows =>
          rw [execSql_queryOk eng b d db1 db2 evs rows hv ho hc hs hq]
          simp [sendCount, List.filter_append, hevs, isSend]

/-- Witness for C4 (amended): the fully successful request sends exactly one
response. -/
theorem single_response_per_request_witness :
    sendCount (executeSql probeEngine probeBody) = 1 :=
  single_response_per_request probeEngine probeBody 0 rfl

/-- Counterexample to claim C1 as stated: on the request whose second seed
statement (1-based index 2, text `seedStmt1`) fails with engine message
`no such table: u`, the reported error does carry the engine message but no
response mentions the 1-based index or the statement text — the body is
exactly `Failed to insert data: no such table: u`. -/
theorem seed_error_identification_refuted :
    firstSeedFailure seedFailEngine 0 (seedList probeBody.insertDataSql) 0 =
      some (1, noSuchTableMsg) ∧
    carriesEngineMsg (executeSql seedFailEngine probeBody) noSuchTableMsg = true ∧
    mentionsIndexOrStmt (executeSql seedFailEngine probeBody) 2 seedStmt1 = false := by
  decide

/-- Claim C1 (corrected): if the seed statement at 0-based index `n` (1-based
index `n + 1`) is the first to fail, the query statement is never executed,
no seed statement beyond index `n` is attempted, and the single reported
error is a 500 whose body is exactly `Failed to insert data: ` followed by
the underlying engine message (carrying no index or statement text). -/
theorem seed_failure_stops_pipeline {σ ρ : Type} (eng : Engine σ ρ) (b : ExecBody)
    (d db1 : σ) (n : Nat) (m : Str)
    (hv : validBody b = true) (ho : eng.openDB = Except.ok d)
    (hc : eng.run d (jsStr b.createTableSql) = Except.ok db1)
    (hf : firstSeedFailure eng db1 (seedList b.insertDataSql) 0 = some (n, m)) :
    (∀ q, Event.runQuery q ∉ executeSql eng b) ∧
    (∀ j s, Event.runInsert j s ∈ executeSql eng b → j ≤ n) ∧
    Event.send (Response.err 500 (insertFailHead ++ m)) ∈ executeSql eng b ∧
    (∀ st msg, Event.send (Response.err st msg) ∈ executeSql eng b →
      st = 500 ∧ msg = insertFailHead ++ m) := by
  obtain ⟨-, h2, h3⟩ := firstSeedFailure_spec eng (seedList b.insertDataSql) db1 0 n m hf
  have hs : runSeeds eng db1 (seedList b.insertDataSql) 0 =
      ((runSeeds eng db1 (seedList b.insertDataSql) 0).1, Except.error m) := by
    rw [← h2]
  have ht := execSql_seedErr eng b d db1
    (runSeeds eng db1 (seedList b.insertDataSql) 0).1 m hv ho hc hs
  refine ⟨fun q => ?_, fun j s hmem => ?_, ?_, fun st msg hmem => ?_⟩
  · rw [ht]
    simp
    intro hq
    obtain ⟨j, s, -, he⟩ := runSeeds_events eng (seedList b.insertDataSql) db1 0 _ hq
    simp at he
  · rw [ht] at hmem
    simp at hmem
    exact h3 j s hmem
  · rw [ht]
    simp
  · rw [ht] at hmem
    simp at hmem
    rcases hmem with hmem | hmem
    · obtain ⟨j, s, -, he⟩ := runSeeds_events eng (seedList b.insertDataSql) db1 0 _ hmem
      simp at he
    · exact hmem

/-- Witness for C1 (amended): on the probe request whose second seed fails,
the single 500 response carries exactly the prefixed engine message. -/
theorem seed_failure_stops_pipeline_witness :
    Event.send (Response.err 500 (insertFailHead ++ noSuchTableMsg)) ∈
      executeSql seedFailEngine probeBody :=
  (seed_failure_stops_pipeline seedFailEngine probeBody 0 0 1 noSuchTableMsg
    rfl rfl rfl rfl).2.2.1

/-- Counterexample to claim C3 as stated: on a schema failure the `catch`
block sends the 500 response (line 171) before the `finally` block closes the
database (line 175), so the database is not released before the response is
finalized. -/
theorem close_before_response_refuted :
    validBody probeBody = true ∧
    Event.dbClose ∈ executeSql schemaFailEngine probeBody ∧
    sendCount (executeSql schemaFailEngine probeBody) = 1 ∧
    closeBeforeSends (executeSql schemaFailEngine probeBody) = false := by
  decide

/-- Claim C3 (corrected): for every execution request that passes input
validation, the database is released on every exit path of the handler —
success, open failure, schema failure, seed failure, or query failure — as
the final step of the trace, i.e. after (not before) the response is sent. -/
theorem db_released_on_every_exit {σ ρ : Type} (eng : Engine σ ρ) (b : ExecBody)
    (hv : validBody b = true) :
    ∃ pre, executeSql eng b = pre ++ [Event.dbClose] ∧ Event.dbClose ∉ pre := by
  cases ho : eng.openDB with
  | error e =>
    refine ⟨[Event.send (Response.err 500 initFailMsg),
             Event.runCreate (jsStr b.createTableSql),
             Event.send (Response.err 500 (createFailHead ++ e))],
      ?_, by simp⟩
    rw [execSql_openErr eng b e hv ho]
    rfl
  | ok d =>
    cases hc : eng.run d (jsStr b.createTableSql) with
    | error m =>
      refine ⟨[Event.dbOpen, Event.runCreate (jsStr b.createTableSql),
               Event.send (Response.err 500 (createFailHead ++ m))],
        ?_, by simp⟩
      rw [execSql_createErr eng b d m hv ho hc]
      rfl
    | ok db1 =>
      rcases hs : runSeeds eng db1 (seedList b.insertDataSql) 0 with ⟨evs, r⟩
      have hevs : Event.dbClose ∉ evs := by
        intro he
        obtain ⟨j, s, -, he2⟩ := runSeeds_events eng (seedList b.insertDataSql) db1 0 _
          (by rw [hs]; exact he)
        simp at he2
      cases r with
      | error m =>
        refine ⟨Event.dbOpen :: Event.runCreate (jsStr b.createTableSql) ::
          (evs ++ [Event.send (Response.err 500 (insertFailHead ++ m))]), ?_, ?_⟩
        · rw [execSql_seedErr eng b d db1 evs m hv ho hc hs]
          simp
        · simp [hevs]
      | ok db2 =>
        cases hq : eng.allRows db2 (jsStr b.sqlQuery) with
        | error m =>
          refine ⟨Event.dbOpen :: Event.runCreate (jsStr b.createTableSql) ::
            (evs ++ [Event.runQuery (jsStr b.sqlQuery),
                     Event.send (Response.err 500 (queryFailHead ++ m))]), ?_, ?_⟩
          · rw [execSql_queryErr eng b d db1 db2 evs m hv ho hc hs hq]
            simp
          · simp [hevs]
        | ok rows =>
          refine ⟨Event.dbOpen :: Event.runCreate (jsStr b.createTableSql) ::
            (evs ++ [Event.runQuery (jsStr b.sqlQuery),
                     Event.send (Response.ok rows)]), ?_, ?_⟩
          · rw [execSql_queryOk eng b d db1 db2 evs rows hv ho hc hs hq]
            simp
          · simp [hevs]

/-- Witness for C3 (amended): the successful probe request closes the
database as its final step. -/
theorem db_released_on_every_exit_witness :
    ∃ pre, executeSql probeEngine probeBody = pre ++ [Event.dbClose] ∧
      Event.dbClose ∉ pre :=
  db_released_on_every_exit probeEngine probeBody rfl

/-- Dropping while a predicate holds skips over any block on which it holds
everywhere. -/
theorem dropWhile_append_of_forall (p : Char → Bool) :
    ∀ (xs ys : Str), (∀ c ∈ xs, p c = true) →
      List.dropWhile p (xs ++ ys) = List.dropWhile p ys := by
  intro xs
  induction xs with
  | nil => intro ys h; rfl
  | cons c cs ih =>
    intro ys h
    have hc : p c = true := h c (List.mem_cons_self c cs)
    have ht := ih ys (fun d hd => h d (List.mem_cons_of_mem c hd))
    simp [List.dropWhile_cons, hc, ht]

/-- The language tag of the counterexample fenced block: `c99` contains a
digit, so the line 91 regex `/^```[a-z]*\n?/i` does not consume it fully. -/
def c7Tag : Str := "c99".toList

/-- The JSON body of the counterexample fenced block. -/
def c7Body : Str := "\x7b\x7d".toList

/-- The counterexample model reply: a fenced block whose info string is
`c99`. -/
def c7Text : Str := fence ++ (c7Tag ++ ('\n' :: (c7Body ++ ('\n' :: fence))))

/-- Counterexample to claim C7 as stated: the model reply `c7Text` is (after
trimming) a fenced block with language tag `c99` and body `{}`, but
normalization leaves the residue `99` of the opening fence line in place —
it yields `99\n{}` rather than the body — because the regex only strips
letters. -/
theorem normalization_any_tag_refuted :
    (∀ c ∈ c7Tag, c ≠ '\n') ∧
    jsTrim c7Text = fence ++ (c7Tag ++ ('\n' :: (c7Body ++ ('\n' :: fence)))) ∧
    cleanGeminiText c7Text ≠ c7Body ∧
    cleanGeminiText c7Text = "99\n\x7b\x7d".toList := by decide

/-- Claim C7 (corrected): after trimming, a reply that begins with a fence
marker followed by a language tag made of ASCII letters only, a newline, the
body, a newline and a closing fence normalizes to exactly the body; a reply
whose trimmed text does not begin with a fence marker is passed to the JSON
parser unchanged.  (A tag containing non-letter characters is only stripped
through its leading letters — see the counterexample.) -/
theorem normalization_strips_letter_tagged_fence :
    (∀ (text tag body : Str),
      (∀ c ∈ tag, isAsciiLetter c = true) →
      jsTrim text = fence ++ (tag ++ ('\n' :: (body ++ ('\n' :: fence)))) →
      cleanGeminiText text = body) ∧
    (∀ text : Str, startsWithFence (jsTrim text) = false →
      cleanGeminiText text = jsTrim text) := by
  constructor
  · intro text tag body htag ht
    have hopen : stripOpenFence (fence ++ (tag ++ ('\n' :: (body ++ ('\n' :: fence))))) =
        body ++ ('\n' :: fence) := by
      unfold stripOpenFence
      have e0 : (fence ++ (tag ++ ('\n' :: (body ++ ('\n' :: fence))))).drop 3 =
          tag ++ ('\n' :: (body ++ ('\n' :: fence))) := rfl
      rw [e0, dropWhile_append_of_forall isAsciiLetter tag _ htag]
      rfl
    have hclose : stripCloseFence (body ++ ('\n' :: fence)) = body := by
      unfold stripCloseFence
      have e1 : (body ++ ('\n' :: fence)).reverse =
          btick :: btick :: btick :: '\n' :: body.reverse := by
        rw [List.reverse_append]
        rfl
      rw [e1]
      simp
    have h1 : startsWithFence (fence ++ (tag ++ ('\n' :: (body ++ ('\n' :: fence))))) =
        true := rfl
    simp only [cleanGeminiText]
    rw [ht]
    simp [h1, hopen, hclose]
  · intro text h
    simp [cleanGeminiText, h]

/-- Witness for C7 (amended): a reply fenced with the letters-only tag `json`
normalizes to its body, and an unfenced reply is passed through unchanged. -/
theorem normalization_strips_letter_tagged_fence_witness :
    cleanGeminiText (fence ++ ("json".toList ++ ('\n' :: (c7Body ++ ('\n' :: fence))))) =
      c7Body ∧
    cleanGeminiText "\x7b\x7d".toList = jsTrim "\x7b\x7d".toList :=
  ⟨normalization_strips_letter_tagged_fence.1
      (fence ++ ("json".toList ++ ('\n' :: (c7Body ++ ('\n' :: fence)))))
      "json".toList c7Body (by decide) (by decide),
   normalization_strips_letter_tagged_fence.2 "\x7b\x7d".toList (by decide)⟩

/-- Claim C9 (confirmed): two execution requests with identical artifacts in
any request stream produce identical row sets — the handler reads no state
other than its own request, and each request gets its own freshly opened,
identically seeded database. -/
theorem identical_requests_identical_rows {σ ρ : Type} (eng : Engine σ ρ)
    (reqs : List ExecBody) (i j : Fin reqs.length)
    (h : reqs.get i = reqs.get j) :
    sentRows ((serveAll eng reqs).getD i.val []) =
    sentRows ((serveAll eng reqs).getD j.val []) := by
  have gi : (serveAll eng reqs).getD i.val [] = executeSql eng (reqs.get i) := by
    simp [serveAll, List.getD, List.getElem?_map, List.get?_eq_get i.isLt]
  have gj : (serveAll eng reqs).getD j.val [] = executeSql eng (reqs.get j) := by
    simp [serveAll, List.getD, List.getElem?_map, List.get?_eq_get j.isLt]
  rw [gi, gj, h]

/-- Witness for C9: the same request sent twice yields the same row sets. -/
theorem identical_requests_identical_rows_witness :
    sentRows ((serveAll probeEngine [probeBody, probeBody]).getD 0 []) =
    sentRows ((serveAll probeEngine [probeBody, probeBody]).getD 1 []) :=
  identical_requests_identical_rows probeEngine [probeBody, probeBody]
    ⟨0, by decide⟩ ⟨1, by decide⟩ rfl

end Server
